import Mathlib

/-!
Shallow embedding of `hive_agent/agent.py` (class `HiveAgent`): the shutdown
coordinator (`shutdown_procedures`, `__signal_handler`, `run_server`,
`__cleanup`) and the tool/provider assembly in `__setup`.

The asyncio event loop is modelled as an explicit state: a list of tasks
(identified by `Nat` ids, standing for object identity of `asyncio.Task`),
the `shutdown_event` flag of the `asyncio.Event`, and the log.  Awaiting a
cooperatively-scheduled task until it is done is modelled by a `settle`
function giving each task's eventual terminal outcome.  Python exceptions
are modelled by an error type split into `Exception` subclasses (caught by
`except Exception`) and other `BaseException`s (not caught).
-/

namespace Hive

/-- Lifecycle states of an `asyncio.Task`; `cancelRequested` is a task whose
`cancel()` has been called but which has not yet reached a checkpoint. -/
inductive TaskStatus
  | running
  | cancelRequested
  | completed
  | cancelled
  | failed
deriving DecidableEq, Repr

/-- A task is terminal when it is done: completed, cancelled or failed. -/
def TaskStatus.isTerminal : TaskStatus → Bool
  | .completed => true
  | .cancelled => true
  | .failed => true
  | .running => false
  | .cancelRequested => false

/-- An asyncio task: identity (`id`) plus lifecycle state. -/
structure Task where
  id : Nat
  status : TaskStatus
deriving DecidableEq, Repr

/-- `task.cancel()`: requests cancellation of a task that is not yet done;
on a done task it has no effect. -/
def Task.cancel (t : Task) : Task :=
  if t.status.isTerminal then t else { t with status := .cancelRequested }

/-- Log levels used by the `logging` calls in `agent.py`. -/
inductive LogLevel
  | debug
  | info
  | error
deriving DecidableEq, Repr

/-- One log record. -/
structure LogEntry where
  level : LogLevel
  msg : String
deriving DecidableEq, Repr

/-- The event-loop state visible to the shutdown coordinator: the set of
scheduled tasks, the `self.shutdown_event` flag and the log. -/
structure LoopState where
  tasks : List Task
  shutdown_event : Bool
  log : List LogEntry
deriving DecidableEq, Repr

/-- `asyncio.all_tasks()`: all tasks currently scheduled on the loop. -/
def all_tasks (st : LoopState) : List Task :=
  st.tasks

/-- `self.shutdown_event = asyncio.Event()` in `HiveAgent.__init__`
(line 57): a freshly constructed `asyncio.Event` is unset. -/
def init_shutdown_event : Bool :=
  false

/-- The eventual outcome of a task that is awaited until done: it completes
normally, honours the cancellation (raises `CancelledError`), or raises some
other error. -/
inductive Outcome
  | ok
  | cancelledOk
  | error
deriving DecidableEq, Repr

/-- Errors surfaced when awaiting a task. -/
inductive TaskError
  | cancelledError
  | taskException
deriving DecidableEq, Repr

/-- Awaiting a task until it is done: a task already done keeps its status,
otherwise it reaches the terminal status prescribed by `settle`. -/
def settleTask (settle : Nat → Outcome) (t : Task) : Task :=
  if t.status.isTerminal then t
  else
    match settle t.id with
    | .ok => { t with status := .completed }
    | .cancelledOk => { t with status := .cancelled }
    | .error => { t with status := .failed }

/-- The result obtained from a done task: its value, or the exception
(including `CancelledError`) it ended with; `none` for a task not yet done. -/
def resultOf : TaskStatus → Option (Except TaskError Unit)
  | .completed => some (.ok ())
  | .cancelled => some (.error .cancelledError)
  | .failed => some (.error .taskException)
  | .running => none
  | .cancelRequested => none

/-- Status of the task with identity `i`, if scheduled. -/
def LoopState.statusOf (st : LoopState) (i : Nat) : Option TaskStatus :=
  (st.tasks.find? (fun t => t.id == i)).map Task.status

/-- `asyncio.gather(*tasks, return_exceptions=...)`: awaits every listed task
until done.  With `return_exceptions=True` the per-task exceptions are
returned as values; with `False` the first exception propagates out of the
`await`. -/
def gather (return_exceptions : Bool) (awaited : List Nat) (settle : Nat → Outcome)
    (st : LoopState) : Except TaskError (LoopState × List (Except TaskError Unit)) :=
  let settled : LoopState :=
    { st with
      tasks := st.tasks.map (fun t => if awaited.contains t.id then settleTask settle t else t) }
  let results : List (Except TaskError Unit) :=
    awaited.filterMap (fun i => (settled.statusOf i).bind resultOf)
  if return_exceptions then
    .ok (settled, results)
  else
    match results.findSome? (fun r => match r with | .error e => some e | .ok _ => none) with
    | some e => .error e
    | none => .ok (settled, results)

/-- Effect on the loop of `[task.cancel() for task in tasks]` in
`shutdown_procedures`, where `tasks` holds every task other than the one
(identity `current`) running the handler itself. -/
def cancel_all_except (current : Nat) (st : LoopState) : LoopState :=
  { st with tasks := st.tasks.map (fun t => if t.id == current then t else t.cancel) }

/-- `HiveAgent.shutdown_procedures` (lines 195-202):

    tasks = [t for t in asyncio.all_tasks() if t is not asyncio.current_task()]
    [task.cancel() for task in tasks]
    await asyncio.gather(*tasks, return_exceptions=True)
    self.shutdown_event.set()
    logging.info("all tasks have been cancelled or completed")

`current` is the identity of the task running `shutdown_procedures` itself;
`spawned_during_wait` are tasks other coroutines create while this coroutine
is suspended in the `await` (they join the loop but are not in the `tasks`
snapshot). -/
def shutdown_procedures (current : Nat) (settle : Nat → Outcome)
    (spawned_during_wait : List Task) (st : LoopState) : Except TaskError LoopState :=
  let tasks := (all_tasks st).filter (fun t => t.id != current)
  let st1 := cancel_all_except current st
  let st2 : LoopState := { st1 with tasks := st1.tasks ++ spawned_during_wait }
  match gather true (tasks.map Task.id) settle st2 with
  | .error e => .error e
  | .ok (st3, _) =>
    let st4 : LoopState := { st3 with shutdown_event := true }
    .ok { st4 with log := st4.log ++ [⟨.info, "all tasks have been cancelled or completed"⟩] }

/-- `HiveAgent.__signal_handler` (lines 191-193):

    logging.info(f"signal {signum} received, initiating graceful shutdown...")
    asyncio.create_task(self.shutdown_procedures())

`asyncio.create_task` schedules a fresh task (identity `fresh_task_id`) on
the loop and returns at once, without awaiting it. -/
def signal_handler (signum : Nat) (fresh_task_id : Nat) (st : LoopState) : LoopState :=
  { st with
    log := st.log ++ [⟨.info, s!"signal {signum} received, initiating graceful shutdown..."⟩],
    tasks := st.tasks ++ [⟨fresh_task_id, .running⟩] }

theorem settleTask_isTerminal (settle : Nat → Outcome) (t : Task) :
    (settleTask settle t).status.isTerminal = true := by
  unfold settleTask
  by_cases h : t.status.isTerminal = true
  · simp [h]
  · simp [h]
    cases settle t.id <;> rfl

theorem settleTask_id (settle : Nat → Outcome) (t : Task) :
    (settleTask settle t).id = t.id := by
  unfold settleTask
  by_cases h : t.status.isTerminal = true
  · simp [h]
  · simp [h]
    cases settle t.id <;> rfl

theorem Task.cancel_id (t : Task) : t.cancel.id = t.id := by
  unfold Task.cancel
  by_cases h : t.status.isTerminal = true <;> simp [h]

/-- `gather(..., return_exceptions=True)` never raises: it computes the
settled loop and returns the per-task results as values. -/
theorem gather_return_exceptions_ok (awaited : List Nat) (settle : Nat → Outcome)
    (st : LoopState) :
    gather true awaited settle st =
      .ok ({ st with
              tasks := st.tasks.map
                (fun t => if awaited.contains t.id then settleTask settle t else t) },
            awaited.filterMap
              (fun i =>
                (LoopState.statusOf
                    { st with
                      tasks := st.tasks.map
                        (fun t => if awaited.contains t.id then settleTask settle t else t) }
                    i).bind resultOf)) := rfl

/-- Unfolding `shutdown_procedures`: it always returns normally, with every
task of the cancel snapshot settled, the event set, and the final log line
appended. -/
theorem shutdown_procedures_eq (current : Nat) (settle : Nat → Outcome)
    (spawned : List Task) (st : LoopState) :
    shutdown_procedures current settle spawned st =
      .ok { tasks :=
              ((cancel_all_except current st).tasks ++ spawned).map
                (fun t =>
                  if (((all_tasks st).filter (fun u => u.id != current)).map Task.id).contains t.id
                  then settleTask settle t else t),
            shutdown_event := true,
            log := st.log ++ [⟨.info, "all tasks have been cancelled or completed"⟩] } := rfl

/-- C1: for every set of tasks scheduled when `shutdown_procedures` begins,
it enumerates exactly the tasks other than its own (the cancel snapshot),
requests cancellation of each live one, and returns (normally) only once
every enumerated task is in a terminal state, with the shutdown event set;
its own task is left untouched. -/
theorem shutdown_settles_all (st : LoopState) (current : Nat) (settle : Nat → Outcome) :
    ∃ st', shutdown_procedures current settle [] st = .ok st'
      ∧ st'.shutdown_event = true
      ∧ st'.tasks.length = st.tasks.length
      ∧ (∀ t ∈ st.tasks, t.id ≠ current → t.status.isTerminal = false →
          ∃ c ∈ (cancel_all_except current st).tasks,
            c.id = t.id ∧ c.status = TaskStatus.cancelRequested)
      ∧ (∀ t ∈ st.tasks, t.id ≠ current →
          ∃ t' ∈ st'.tasks, t'.id = t.id ∧ t'.status.isTerminal = true)
      ∧ (∀ t ∈ st.tasks, t.id = current → t ∈ st'.tasks) := by
  refine ⟨_, shutdown_procedures_eq current settle [] st, rfl, ?_, ?_, ?_, ?_⟩
  · simp [cancel_all_except]
  · intro t ht hne hlive
    refine ⟨t.cancel, List.mem_map.mpr ⟨t, ht, ?_⟩, Task.cancel_id t, ?_⟩
    · simp [show (t.id == current) = false from by simp [hne]]
    · unfold Task.cancel
      simp [hlive]
  · intro t ht hne
    set awaited := ((all_tasks st).filter (fun u => u.id != current)).map Task.id with haw
    have hmem : t.id ∈ awaited := by
      refine List.mem_map.mpr ⟨t, ?_, rfl⟩
      simp [all_tasks, List.mem_filter, ht, hne]
    have hcont : awaited.contains t.id = true := by
      simpa using hmem
    have hg : (if t.id == current then t else t.cancel) ∈ (cancel_all_except current st).tasks :=
      List.mem_map.mpr ⟨t, ht, rfl⟩
    have hgid : (if t.id == current then t else t.cancel).id = t.id := by
      simp [show (t.id == current) = false from by simp [hne], Task.cancel_id]
    refine ⟨settleTask settle (if t.id == current then t else t.cancel),
      List.mem_map.mpr ⟨(if t.id == current then t else t.cancel), by simpa using hg, ?_⟩,
      by rw [settleTask_id, hgid], settleTask_isTerminal _ _⟩
    rw [hgid, hcont]
    simp
  · intro t ht hid
    have hnmem : (((all_tasks st).filter (fun u => u.id != current)).map Task.id).contains t.id
        = false := by
      rw [Bool.eq_false_iff]
      intro hcont
      simp [all_tasks, List.mem_filter] at hcont
      obtain ⟨u, ⟨hu, hune⟩, huid⟩ := hcont
      exact hune (huid.trans hid)
    have hmm : t ∈ (cancel_all_except current st).tasks := by
      unfold cancel_all_except
      refine List.mem_map.mpr ⟨t, ht, ?_⟩
      simp [hid]
    refine List.mem_map.mpr ⟨t, by simpa using hmm, ?_⟩
    simp only [hnmem]
    simp

/-- A small concrete loop used by witnesses: two running worker tasks plus
the task (id 0) that runs the shutdown handler itself. -/
def demoLoop : LoopState :=
  { tasks := [⟨1, .running⟩, ⟨2, .running⟩, ⟨0, .running⟩],
    shutdown_event := false,
    log := [] }

theorem shutdown_settles_all_witness :
    ∃ t' ∈ ({ tasks := [⟨1, .cancelled⟩, ⟨2, .cancelled⟩, ⟨0, .running⟩],
              shutdown_event := true,
              log := [⟨.info, "all tasks have been cancelled or completed"⟩] } : LoopState).tasks,
      t'.id = 1 ∧ t'.status.isTerminal = true := by
  obtain ⟨st', heq, hev, hlen, hcanc, hterm, hcur⟩ :=
    shutdown_settles_all demoLoop 0 (fun _ => Outcome.cancelledOk)
  have hc : shutdown_procedures 0 (fun _ => Outcome.cancelledOk) [] demoLoop
      = Except.ok ({ tasks := [⟨1, .cancelled⟩, ⟨2, .cancelled⟩, ⟨0, .running⟩],
                     shutdown_event := true,
                     log := [⟨.info, "all tasks have been cancelled or completed"⟩] }
                   : LoopState) := rfl
  have hst : st' = _ := Except.ok.inj (heq.symm.trans hc)
  have h2 := hterm ⟨1, .running⟩ (by simp [demoLoop]) (by decide)
  rw [hst] at h2
  exact h2

theorem map_id_of_mem {α : Type} (l : List α) (f : α → α) (h : ∀ x ∈ l, f x = x) :
    l.map f = l := by
  induction l with
  | nil => rfl
  | cons a as ih =>
    simp only [List.map_cons, h a (by simp)]
    rw [ih (fun x hx => h x (by simp [hx]))]

/-- C9: tasks that join the loop after `shutdown_procedures` took its
snapshot are neither cancelled nor awaited: they survive unchanged at the
end of the loop's task list, and the shutdown event is set regardless of
their state. -/
theorem shutdown_spawned_untouched (st : LoopState) (current : Nat) (settle : Nat → Outcome)
    (spawned : List Task)
    (hfresh : ∀ s ∈ spawned, s.id ∉ st.tasks.map Task.id) :
    ∃ st', shutdown_procedures current settle spawned st = .ok st'
      ∧ st'.shutdown_event = true
      ∧ ∃ pre, st'.tasks = pre ++ spawned ∧ pre.length = st.tasks.length := by
  refine ⟨_, shutdown_procedures_eq current settle spawned st, rfl, ?_⟩
  refine ⟨(cancel_all_except current st).tasks.map
    (fun t =>
      if (((all_tasks st).filter (fun u => u.id != current)).map Task.id).contains t.id
      then settleTask settle t else t), ?_, by simp [cancel_all_except]⟩
  dsimp only
  rw [List.map_append]
  congr 1
  apply map_id_of_mem
  intro s hs
  have hnc : (((all_tasks st).filter (fun u => u.id != current)).map Task.id).contains s.id
      = false := by
    rw [Bool.eq_false_iff]
    intro hcont
    simp [all_tasks, List.mem_filter] at hcont
    obtain ⟨u, ⟨hu, _⟩, huid⟩ := hcont
    exact hfresh s hs (List.mem_map.mpr ⟨u, hu, huid⟩)
  simp only [hnc]
  simp

theorem shutdown_spawned_untouched_witness :
    ∃ st', shutdown_procedures 0 (fun _ => Outcome.cancelledOk)
        [⟨7, .running⟩] demoLoop = .ok st'
      ∧ st'.shutdown_event = true
      ∧ ∃ pre, st'.tasks = pre ++ [⟨7, .running⟩] ∧ pre.length = demoLoop.tasks.length :=
  shutdown_spawned_untouched demoLoop 0 (fun _ => Outcome.cancelledOk)
    [⟨7, .running⟩] (by decide)

/-- C3: even when an enumerated task ends in an error, `shutdown_procedures`
returns normally (the `await` with `return_exceptions=True` turns per-task
errors into values), sets the shutdown event and writes its final log
line. -/
theorem shutdown_suppresses_errors (st : LoopState) (current : Nat) (settle : Nat → Outcome)
    (t : Task) (ht : t ∈ st.tasks) (hne : t.id ≠ current) (herr : settle t.id = .error) :
    ∃ st', shutdown_procedures current settle [] st = .ok st'
      ∧ st'.shutdown_event = true
      ∧ st'.log = st.log ++ [⟨.info, "all tasks have been cancelled or completed"⟩] :=
  ⟨_, shutdown_procedures_eq current settle [] st, rfl, rfl⟩

theorem shutdown_suppresses_errors_witness :
    ∃ st', shutdown_procedures 0 (fun _ => Outcome.error) [] demoLoop = .ok st'
      ∧ st'.shutdown_event = true
      ∧ st'.log = demoLoop.log ++ [⟨.info, "all tasks have been cancelled or completed"⟩] :=
  shutdown_suppresses_errors demoLoop 0 (fun _ => Outcome.error) ⟨1, .running⟩
    (by simp [demoLoop]) (by decide) rfl

/-- C8: the shutdown event starts unset at construction, the signal handler
never changes it, and `shutdown_procedures` (the only writer) always returns
with it set; hence once set it is never cleared by any coordinator
operation (`run_server`/`cleanup`, modelled below, do not touch the loop
state at all). -/
theorem shutdown_event_lifecycle :
    init_shutdown_event = false
    ∧ (∀ signum fresh st, (signal_handler signum fresh st).shutdown_event = st.shutdown_event)
    ∧ (∀ current settle spawned st, ∃ st',
        shutdown_procedures current settle spawned st = .ok st'
          ∧ st'.shutdown_event = true) :=
  ⟨rfl, fun _ _ _ => rfl, fun current settle spawned st =>
    ⟨_, shutdown_procedures_eq current settle spawned st, rfl⟩⟩

/-- C7: the signal handler only logs receipt of the signal and schedules the
shutdown coroutine as a fresh, still-running task; it does not wait for it
(the new task is scheduled in a non-terminal state) and leaves the existing
tasks and the shutdown event untouched. -/
theorem signal_handler_fire_and_forget (signum : Nat) (fresh : Nat) (st : LoopState) :
    (signal_handler signum fresh st).log
      = st.log ++ [⟨.info, s!"signal {signum} received, initiating graceful shutdown..."⟩]
    ∧ (signal_handler signum fresh st).tasks = st.tasks ++ [⟨fresh, .running⟩]
    ∧ (signal_handler signum fresh st).shutdown_event = st.shutdown_event
    ∧ TaskStatus.running.isTerminal = false :=
  ⟨rfl, rfl, rfl, rfl⟩

/-- Python exceptions: `exception` covers subclasses of `Exception` (what an
`except Exception` clause catches); `baseException` covers the remaining
`BaseException`s (`KeyboardInterrupt`, `asyncio.CancelledError`, ...). -/
inductive PyError
  | exception (msg : String)
  | baseException (msg : String)
deriving DecidableEq, Repr

/-- Whether an `except Exception` clause catches this error. -/
def PyError.isException : PyError → Bool
  | .exception _ => true
  | .baseException _ => false

/-- `HiveAgent.__cleanup` (lines 204-212):

    try:
        if hasattr(self, "db_session"):
            await self.db_session.close()
            logging.debug("database connection closed")
    except Exception as e:
        logging.error(f"error during cleanup: {e}", exc_info=True)
    finally:
        logging.info("cleanup process completed")

`db_session` is `none` when the attribute was never attached; otherwise it
carries the outcome of awaiting `close()`.  Returns the log, the error that
propagates out of `cleanup` (if any), and an invocation counter incremented
once per call. -/
def cleanup (db_session : Option (Except PyError Unit)) (log : List LogEntry)
    (cleanup_calls : Nat) : List LogEntry × Option PyError × Nat :=
  let calls := cleanup_calls + 1
  let tryStep : List LogEntry × Option PyError :=
    match db_session with
    | none => (log, none)
    | some close_result =>
      match close_result with
      | .ok _ => (log ++ [⟨.debug, "database connection closed"⟩], none)
      | .error e => (log, some e)
  let handled : List LogEntry × Option PyError :=
    match tryStep with
    | (l, some e) =>
      if e.isException then (l ++ [⟨.error, "error during cleanup"⟩], none)
      else (l, some e)
    | (l, none) => (l, none)
  (handled.1 ++ [⟨.info, "cleanup process completed"⟩], handled.2, calls)

/-- `HiveAgent.run_server` (lines 161-173):

    try:
        ...
        await server.serve()
    except Exception as e:
        logging.error(f"unexpected error while running the server: {e}", exc_info=True)
    finally:
        await self.__cleanup()

`serve_result` is the outcome of `await server.serve()` (`none` when it
returns normally).  Per Python semantics an error raised inside the
`finally` block replaces a pending error from the `try`/`except` part. -/
def run_server (serve_result : Option PyError) (db_session : Option (Except PyError Unit))
    (log : List LogEntry) (cleanup_calls : Nat) : List LogEntry × Option PyError × Nat :=
  let tryStep : List LogEntry × Option PyError :=
    match serve_result with
    | none => (log, none)
    | some e =>
      if e.isException then
        (log ++ [⟨.error, "unexpected error while running the server"⟩], none)
      else (log, some e)
  let cleanupStep := cleanup db_session tryStep.1 cleanup_calls
  (cleanupStep.1, cleanupStep.2.1.orElse (fun _ => tryStep.2), cleanupStep.2.2)

/-- `cleanup` always appends its lines after the log it receives, ends them
with the completion line, and bumps the invocation counter exactly once. -/
theorem cleanup_log_extends (db : Option (Except PyError Unit)) (log : List LogEntry) (n : Nat) :
    ∃ tail mid, (cleanup db log n).1 = log ++ tail
      ∧ tail = mid ++ [⟨.info, "cleanup process completed"⟩]
      ∧ (cleanup db log n).2.2 = n + 1 := by
  match db with
  | none =>
    exact ⟨[⟨.info, "cleanup process completed"⟩], [], rfl, rfl, rfl⟩
  | some (.ok ()) =>
    exact ⟨[⟨.debug, "database connection closed"⟩, ⟨.info, "cleanup process completed"⟩],
      [⟨.debug, "database connection closed"⟩], by
        show (log ++ [⟨.debug, "database connection closed"⟩])
            ++ [⟨.info, "cleanup process completed"⟩] = _
        rw [List.append_assoc]
        rfl, rfl, rfl⟩
  | some (.error (.exception m)) =>
    exact ⟨[⟨.error, "error during cleanup"⟩, ⟨.info, "cleanup process completed"⟩],
      [⟨.error, "error during cleanup"⟩], by
        show (log ++ [⟨.error, "error during cleanup"⟩])
            ++ [⟨.info, "cleanup process completed"⟩] = _
        rw [List.append_assoc]
        rfl, rfl, rfl⟩
  | some (.error (.baseException m)) =>
    exact ⟨[⟨.info, "cleanup process completed"⟩], [], rfl, rfl, rfl⟩

/-- C2: on every run of `run_server` — normal return of `server.serve()`, an
`Exception`, or any other `BaseException` — `cleanup` is invoked exactly
once (the counter advances by one), its completion line is the last log
record (so cleanup runs strictly after the serving loop ended), and all
cleanup records come after the log as it stood when the serving loop ended,
including the serve-error record when the loop raised an `Exception`. -/
theorem run_server_cleanup_once (serve_result : Option PyError)
    (db : Option (Except PyError Unit)) (log : List LogEntry) (n : Nat) :
    (run_server serve_result db log n).2.2 = n + 1
    ∧ (∃ mid, (run_server serve_result db log n).1
        = mid ++ [⟨.info, "cleanup process completed"⟩])
    ∧ (serve_result = none →
        ∃ tail, (run_server serve_result db log n).1 = log ++ tail)
    ∧ (∀ e, serve_result = some e → e.isException = true →
        ∃ tail, (run_server serve_result db log n).1
          = log ++ ⟨.error, "unexpected error while running the server"⟩ :: tail) := by
  cases serve_result with
  | none =>
    obtain ⟨tail, mid, h1, h2, h3⟩ := cleanup_log_extends db log n
    refine ⟨h3, ⟨log ++ mid, ?_⟩, fun _ => ⟨tail, h1⟩, fun e he => Option.noConfusion he⟩
    show (cleanup db log n).1 = _
    rw [h1, h2, List.append_assoc]
  | some e =>
    cases e with
    | exception m =>
      obtain ⟨tail, mid, h1, h2, h3⟩ :=
        cleanup_log_extends db (log ++ [⟨.error, "unexpected error while running the server"⟩]) n
      refine ⟨h3, ⟨(log ++ [⟨.error, "unexpected error while running the server"⟩]) ++ mid, ?_⟩,
        fun hn => Option.noConfusion hn, fun e' he' _ => ⟨tail, ?_⟩⟩
      · show (cleanup db (log ++ [⟨.error, "unexpected error while running the server"⟩]) n).1 = _
        rw [h1, h2]
        simp [List.append_assoc]
      · show (cleanup db (log ++ [⟨.error, "unexpected error while running the server"⟩]) n).1 = _
        rw [h1, List.append_assoc]
        rfl
    | baseException m =>
      obtain ⟨tail, mid, h1, h2, h3⟩ := cleanup_log_extends db log n
      refine ⟨h3, ⟨log ++ mid, ?_⟩, fun hn => Option.noConfusion hn, fun e' he' hexc => ?_⟩
      · show (cleanup db log n).1 = _
        rw [h1, h2, List.append_assoc]
      · injection he' with he''
        rw [← he''] at hexc
        exact absurd hexc (by simp [PyError.isException])

theorem run_server_cleanup_once_witness :
    (run_server (some (.exception "boom")) none [] 0).2.2 = 0 + 1
    ∧ (∃ mid, (run_server (some (.exception "boom")) none [] 0).1
        = mid ++ [⟨.info, "cleanup process completed"⟩])
    ∧ ((some (PyError.exception "boom") : Option PyError) = none →
        ∃ tail, (run_server (some (.exception "boom")) none [] 0).1 = [] ++ tail)
    ∧ (∀ e, (some (PyError.exception "boom") : Option PyError) = some e →
        e.isException = true →
        ∃ tail, (run_server (some (.exception "boom")) none [] 0).1
          = [] ++ ⟨.error, "unexpected error while running the server"⟩ :: tail) :=
  run_server_cleanup_once (some (.exception "boom")) none [] 0

/-- C5: when an attached `db_session.close()` raises an `Exception`,
`cleanup` swallows it (nothing propagates), logs the release failure, and
still logs "cleanup process completed" via its `finally` block. -/
theorem cleanup_release_failure (m : String) (log : List LogEntry) (n : Nat) :
    (cleanup (some (.error (.exception m))) log n).2.1 = none
    ∧ (cleanup (some (.error (.exception m))) log n).1
        = log ++ [⟨.error, "error during cleanup"⟩, ⟨.info, "cleanup process completed"⟩]
    ∧ (cleanup (some (.error (.exception m))) log n).2.2 = n + 1 := by
  refine ⟨rfl, ?_, rfl⟩
  show (log ++ [⟨.error, "error during cleanup"⟩]) ++ [⟨.info, "cleanup process completed"⟩] = _
  rw [List.append_assoc]
  rfl

/-- C6: when no `db_session` attribute was ever attached, `cleanup` performs
no release (the log gains nothing but the completion line), raises nothing,
and bumps the invocation counter once. -/
theorem cleanup_no_session (log : List LogEntry) (n : Nat) :
    (cleanup none log n).2.1 = none
    ∧ (cleanup none log n).1 = log ++ [⟨.info, "cleanup process completed"⟩]
    ∧ (cleanup none log n).2.2 = n + 1 :=
  ⟨rfl, rfl, rfl⟩

/-- Whether `needle` matches the front of the second list. -/
def leadEq : List Char → List Char → Bool
  | [], _ => true
  | _ :: _, [] => false
  | n :: ns, h :: hs => (n == h) && leadEq ns hs

/-- Whether `needle` occurs contiguously in the second list. -/
def hasSub (needle : List Char) : List Char → Bool
  | [] => leadEq needle []
  | h :: hs => leadEq needle (h :: hs) || hasSub needle hs

/-- Python `sub in s` on strings: substring containment. -/
def str_contains (s sub : String) : Bool :=
  hasSub sub.data s.data

/-- Python truthiness of a string: nonempty strings are truthy. -/
def py_truthy_str (s : String) : Bool :=
  !s.isEmpty

/-- The four LLM wrappers `__setup` can pick: `OpenAILLM`, `ClaudeLLM`,
`OllamaLLM`, `MistralLLM`. -/
inductive Provider
  | openai
  | claude
  | ollama
  | mistral
deriving DecidableEq, Repr

/-- Provider selection in `HiveAgent.__setup` (lines 106-116):

    if "gpt" in model: ... OpenAILLM ...
    elif "claude" in model: ... ClaudeLLM ...
    elif "llama" in model: ... OllamaLLM ...
    elif "mixtral" or "mistral" in model: ... MistralLLM ...
    else: ... OpenAILLM ...

The fourth condition is Python's `"mixtral" or ("mistral" in model)`: `x or y`
evaluates to `x` when `x` is truthy, and the nonempty literal `"mixtral"` is
always truthy. -/
def select_provider (model : String) : Provider :=
  if str_contains model "gpt" then .openai
  else if str_contains model "claude" then .claude
  else if str_contains model "llama" then .ollama
  else if py_truthy_str "mixtral" || str_contains model "mistral" then .mistral
  else .openai

/-- State of the filesystem at `files.BASE_DIR`, as probed by the
`is_base_dir_not_empty` lambda. -/
structure BaseDirInfo where
  path_exists : Bool
  isfile : Bool
  size : Nat
  isdir : Bool
  listing : List String
deriving DecidableEq, Repr

/-- The `is_base_dir_not_empty` lambda in `HiveAgent.__setup` (lines 90-98):
`os.path.exists(BASE_DIR) and (getsize > 0 if isfile else (bool(listdir)
if isdir else False))`. -/
def is_base_dir_not_empty (d : BaseDirInfo) : Bool :=
  d.path_exists &&
    (if d.isfile then decide (d.size > 0)
     else if d.isdir then !d.listing.isEmpty
     else false)

/-- The guard `if is_base_dir_not_empty() == True & self.retrieve == True:`
(line 102).  `&` binds tighter than `==`, and `==` chains, so Python parses
this as `f() == (True & retrieve) and (True & retrieve) == True`; on a
boolean `retrieve`, `True & retrieve` is `retrieve`. -/
def retrieval_condition (base_not_empty retrieve : Bool) : Bool :=
  (base_not_empty == (true && retrieve)) && ((true && retrieve) == true)

/-- A `FunctionTool.from_defaults(fn=func)`, identified by its function. -/
structure FunctionTool where
  fn : String
deriving DecidableEq, Repr

/-- `HiveAgent._tools_from_funcs`. -/
def tools_from_funcs (funcs : List String) : List FunctionTool :=
  funcs.map (fun f => ⟨f⟩)

/-- The system tools registered in `__setup` (line 86). -/
def system_tool_funcs : List String :=
  ["get_db_schemas", "text_2_sql"]

/-- Outcome of `HiveAgent.__setup` relevant to tool assembly: the direct
tool list, whether the `basic_retrieve` tool retriever was attached, and
the selected provider. -/
structure SetupResult where
  tools : List FunctionTool
  tool_retriever : Bool
  provider : Provider
deriving DecidableEq, Repr

/-- Tool assembly and provider selection in `HiveAgent.__setup`
(lines 81-116): build custom plus system tools, optionally replace them
with the retrieval wrapper, then pick the provider from the model name. -/
def setup (functions : List String) (d : BaseDirInfo) (retrieve : Bool)
    (model : String) : SetupResult :=
  let custom_tools := tools_from_funcs functions
  let system_tools := tools_from_funcs system_tool_funcs
  let tools := custom_tools ++ system_tools
  if retrieval_condition (is_base_dir_not_empty d) retrieve then
    { tools := [], tool_retriever := true, provider := select_provider model }
  else
    { tools := tools, tool_retriever := false, provider := select_provider model }

/-- Despite its odd parse, the line-102 guard coincides with the plain
conjunction of the two flags. -/
theorem retrieval_condition_eq_and (b r : Bool) :
    retrieval_condition b r = (b && r) := by
  cases b <;> cases r <;> rfl

/-- C4: `__setup` attaches the `basic_retrieve` tool wrapper and empties
the direct tool list exactly when the `retrieve` flag is set and the files
base directory exists and is non-empty; otherwise the agent keeps the
concatenated custom and system tools and no retriever. -/
theorem setup_retrieval_iff (functions : List String) (d : BaseDirInfo) (retrieve : Bool)
    (model : String) :
    (((setup functions d retrieve model).tool_retriever = true
        ∧ (setup functions d retrieve model).tools = [])
      ↔ (retrieve = true ∧ is_base_dir_not_empty d = true))
    ∧ (¬(retrieve = true ∧ is_base_dir_not_empty d = true) →
        (setup functions d retrieve model).tool_retriever = false
        ∧ (setup functions d retrieve model).tools
            = tools_from_funcs functions ++ tools_from_funcs system_tool_funcs) := by
  have hcond : retrieval_condition (is_base_dir_not_empty d) retrieve
      = (is_base_dir_not_empty d && retrieve) := retrieval_condition_eq_and _ _
  by_cases h : (is_base_dir_not_empty d && retrieve) = true
  · have hc : retrieval_condition (is_base_dir_not_empty d) retrieve = true := hcond.trans h
    have hs : setup functions d retrieve model
        = { tools := [], tool_retriever := true, provider := select_provider model } := by
      simp only [setup, hc]
      rfl
    rw [hs]
    rw [Bool.and_eq_true] at h
    refine ⟨?_, fun hn => absurd ⟨h.2, h.1⟩ hn⟩
    simp [h.1, h.2]
  · rw [Bool.not_eq_true] at h
    have hc : retrieval_condition (is_base_dir_not_empty d) retrieve = false := hcond.trans h
    have hs : setup functions d retrieve model
        = { tools := tools_from_funcs functions ++ tools_from_funcs system_tool_funcs,
            tool_retriever := false, provider := select_provider model } := by
      simp only [setup, hc]
      rfl
    rw [hs]
    constructor
    · constructor
      · rintro ⟨h1, -⟩
        exact absurd h1 (by simp)
      · rintro ⟨hr, hb⟩
        rw [hr, hb] at h
        simp at h
    · exact fun _ => ⟨rfl, rfl⟩

theorem setup_retrieval_iff_witness :
    (setup ["my_tool"] ⟨true, false, 0, true, ["doc.md"]⟩ true "gpt-3.5-turbo").tool_retriever
        = true
    ∧ (setup ["my_tool"] ⟨true, false, 0, true, ["doc.md"]⟩ true "gpt-3.5-turbo").tools = [] :=
  (setup_retrieval_iff ["my_tool"] ⟨true, false, 0, true, ["doc.md"]⟩ true "gpt-3.5-turbo").1.mpr
    ⟨rfl, by decide⟩

/-- C10: any model name containing none of "gpt", "claude" or "llama" lands
in the `elif "mixtral" or "mistral" in model` branch — whose condition is
always truthy — and selects the Mistral provider, even with no "mixtral" or
"mistral" in the name, so the final `else` (default OpenAI) is
unreachable. -/
theorem mistral_branch_catches_all (model : String)
    (hg : str_contains model "gpt" = false)
    (hc : str_contains model "claude" = false)
    (hl : str_contains model "llama" = false) :
    select_provider model = Provider.mistral := by
  unfold select_provider
  rw [hg, hc, hl]
  have hpt : py_truthy_str "mixtral" = true := by decide
  rw [hpt]
  simp

theorem mistral_branch_catches_all_witness :
    str_contains "dummy-model" "gpt" = false
    ∧ str_contains "dummy-model" "claude" = false
    ∧ str_contains "dummy-model" "llama" = false
    ∧ str_contains "dummy-model" "mistral" = false
    ∧ select_provider "dummy-model" = Provider.mistral :=
  ⟨by decide, by decide, by decide, by decide,
    mistral_branch_catches_all "dummy-model" (by decide) (by decide) (by decide)⟩

end Hive
